import Mathlib

/-!
Shallow embedding of `app.py`: a Flask backend that proxies a
documentation-generation request to the Hugging Face inference API
(`call_huggingface`, with a fallback-model retry chain) or to OpenAI
chat completion (`call_openai`), dispatched by `generate_docs`.

JSON values are modelled by the inductive `Json`; Python-level dynamic
operations (`in`, subscripting, `len`, truthiness, `str()`) are modelled
by `py*` helpers returning `Except String _` where the Python operation
can raise.  The network is modelled as an explicit environment: one
outcome for the primary POST and one outcome per fallback model, each
either a transport exception (`.error msg`) or an `HttpResponse`.
-/

inductive Json where
  | null
  | bool (b : Bool)
  | num (n : Int)
  | str (s : String)
  | arr (elems : List Json)
  | obj (fields : List (String × Json))

mutual
/-- Python `repr` of a decoded-JSON value (used for elements nested inside
containers when Python stringifies a dict or list). -/
def pyRepr : Json → String
  | .null => "None"
  | .bool true => "True"
  | .bool false => "False"
  | .num n => toString n
  | .str s => "\x27" ++ s ++ "\x27"
  | .arr l => "[" ++ pyReprList l ++ "]"
  | .obj fs => "\x7b" ++ pyReprFields fs ++ "\x7d"

def pyReprList : List Json → String
  | [] => ""
  | [j] => pyRepr j
  | j :: rest => pyRepr j ++ ", " ++ pyReprList rest

def pyReprFields : List (String × Json) → String
  | [] => ""
  | [(k, v)] => "\x27" ++ k ++ "\x27: " ++ pyRepr v
  | (k, v) :: rest => "\x27" ++ k ++ "\x27: " ++ pyRepr v ++ ", " ++ pyReprFields rest
end

/-- Python `str()` of a decoded-JSON value: a `str` prints without quotes,
every other value prints as its `repr`.  This is what an f-string
interpolation (`f"... { x}"`) and `str(data)` compute. -/
def pyToStr : Json → String
  | .str s => s
  | j => pyRepr j

/-- Key membership in a Python dict (`k in d` for a dict `d`). -/
def dictHasKey (fs : List (String × Json)) (k : String) : Bool :=
  fs.any (fun p => p.1 == k)

/-- Python `d.get(k)` result for a dict: the value, or `None` when absent. -/
def dictLookup (fs : List (String × Json)) (k : String) : Json :=
  (((fs.find? (fun p => p.1 == k)).map Prod.snd)).getD .null

/-- Substring test on character lists (Python `k in s` for strings). -/
def charsContain (needle : List Char) : List Char → Bool
  | [] => needle.isEmpty
  | c :: t => needle.isPrefixOf (c :: t) || charsContain needle t

/-- Python `k in x` for a string key `k`: key membership for a dict,
element membership for a list (an element equals the string `k` only if it
is that string), substring test for a string; raises `TypeError` for
`None`, booleans and numbers. -/
def pyIn (k : String) : Json → Except String Bool
  | .obj fs => .ok (dictHasKey fs k)
  | .arr l => .ok (l.any (fun j => match j with | .str s => s == k | _ => false))
  | .str s => .ok (charsContain k.data s.data)
  | _ => .error ("TypeError: argument of type is not iterable")

/-- Python `x[k]` for a string key `k`: dict lookup (raising `KeyError`
when absent); any other shape raises `TypeError`. -/
def pySub (k : String) : Json → Except String Json
  | .obj fs =>
    match fs.find? (fun p => p.1 == k) with
    | some p => .ok p.2
    | none => .error ("KeyError: " ++ k)
  | _ => .error "TypeError: value is not subscriptable by a string key"

/-- Python `x[0]`: first element of a list (raising `IndexError` when
empty), first character of a string, `TypeError`/`KeyError` otherwise. -/
def pyIndex0 : Json → Except String Json
  | .arr (j :: _) => .ok j
  | .arr [] => .error "IndexError: list index out of range"
  | .str s =>
    match s.data with
    | c :: _ => .ok (.str (String.mk [c]))
    | [] => .error "IndexError: string index out of range"
  | .obj _ => .error "KeyError: 0"
  | _ => .error "TypeError: value is not subscriptable"

/-- Python `len(x)`: length of a list, string or dict; `TypeError` otherwise. -/
def pyLen : Json → Except String Nat
  | .arr l => .ok l.length
  | .str s => .ok s.length
  | .obj fs => .ok fs.length
  | _ => .error "TypeError: value has no len"

/-- Python `x.get(k)` where `x` is expected to be a dict: any non-dict
value (including `None`) raises `AttributeError`. -/
def pyGet (k : String) : Json → Except String Json
  | .obj fs => .ok (dictLookup fs k)
  | _ => .error "AttributeError: value has no attribute get"

/-- Python truthiness (`not code` tests) of a decoded-JSON value. -/
def pyFalsy : Json → Bool
  | .null => true
  | .bool b => !b
  | .num n => n == 0
  | .str s => s == ""
  | .arr l => l.isEmpty
  | .obj fs => fs.isEmpty

/-- An HTTP response as seen through the `requests` API: a status code,
the result of `resp.json()` (parsed value, or the decode exception's
message), and `resp.text`. -/
structure HttpResponse where
  status : Nat
  jsonBody : Except String Json
  text : String

/-- Outcome of one `requests.post`: a transport exception message, or a
response. -/
abbrev NetOutcome := Except String HttpResponse

/-- Network behaviour for one run of `call_huggingface`: the outcome of
the primary POST (to the configured model's endpoint) and the outcome of
the POST to each fallback model's endpoint
`https://router.huggingface.co/hf-inference/\x7bfm\x7d`. -/
structure HFNet where
  primary : NetOutcome
  fallback : String → NetOutcome

/-- Lines 38–46 of `app.py`: the built-in fallback model list, overridden
as a whole by a comma-separated `HUGGINGFACE_FALLBACK_MODELS` environment
variable (entries stripped, empties dropped; an empty variable keeps the
default). -/
def fallbackModels (env : String → Option String) : List String :=
  let defaults := ["gpt2", "bigscience/bloom-560m", "facebook/opt-350m"]
  match env "HUGGINGFACE_FALLBACK_MODELS" with
  | none => defaults
  | some s =>
    if s = "" then defaults
    else ((s.splitOn ",").map String.trim).filter (fun m => m ≠ "")

/-- The short-circuited condition
`isinstance(data2, dict) and "choices" in data2 and len(data2["choices"]) > 0
and "text" in data2["choices"][0]` of line 60 of `app.py`: `.ok true` when
the choices clause matches, `.ok false` when it fails to match without
raising (key absent, empty list/collection, or first element lacking
"text"), `.error _` when evaluating it raises (e.g. a `choices` value with
no `len`). -/
def fallbackChoicesCond (data2 : Json) : Except String Bool :=
  match data2 with
  | .obj _ => do
    let hasChoices ← pyIn "choices" data2
    if hasChoices then
      let ch ← pySub "choices" data2
      let n ← pyLen ch
      if n > 0 then
        let c0 ← pyIndex0 ch
        pyIn "text" c0
      else pure false
    else pure false
  | _ => pure false

/-- Lines 54–62 of `app.py`: interpretation of a fallback model's 200
response body after a successful `resp2.json()`.  Note that, unlike the
primary path `hfParse200`, this has NO branch for an `error` key: a dict
that matches none of the three extraction shapes falls through to
`str(data2)` with success `True`. -/
def fallbackParse200 (data2 : Json) : Except String (Bool × Json) := do
  let listHit ← (match data2 with
    | .arr l =>
      if l.length > 0 then do
        let d0 ← pyIndex0 data2
        pyIn "generated_text" d0
      else pure false
    | _ => pure false)
  if listHit then
    let d0 ← pyIndex0 data2
    let v ← pySub "generated_text" d0
    return (true, v)
  let dictHit ← (match data2 with
    | .obj _ => pyIn "generated_text" data2
    | _ => pure false)
  if dictHit then
    let v ← pySub "generated_text" data2
    return (true, v)
  let choicesHit ← fallbackChoicesCond data2
  if choicesHit then
    let ch ← pySub "choices" data2
    let c0 ← pyIndex0 ch
    let v ← pySub "text" c0
    return (true, v)
  return (true, Json.str (pyToStr data2))

/-- Lines 53–64 of `app.py`: handling of a fallback model's 200 response.
Any exception while decoding or inspecting the body yields the fixed
parse-error failure naming the fallback model. -/
def hfFallbackAttempt (fm : String) (resp2 : HttpResponse) : Bool × Json :=
  match (do fallbackParse200 (← resp2.jsonBody) : Except String (Bool × Json)) with
  | .ok r => r
  | .error _ => (false, Json.str ("Parse error from fallback model " ++ fm))

/-- Lines 48–64 of `app.py`: the fallback loop.  Returns the result of the
first attempt whose POST returns status 200 (transport errors and non-200
responses are skipped), together with the list of fallback models actually
POSTed to, in order. -/
def tryFallbacks (net : String → NetOutcome) :
    List String → Option (Bool × Json) × List String
  | [] => (none, [])
  | fm :: rest =>
    match net fm with
    | .error _ =>
      let r := tryFallbacks net rest
      (r.1, fm :: r.2)
    | .ok resp2 =>
      if resp2.status = 200 then
        (some (hfFallbackAttempt fm resp2), [fm])
      else
        let r := tryFallbacks net rest
        (r.1, fm :: r.2)

/-- Lines 72–88 of `app.py`: the response-shape normalizer for a primary
200 response after a successful `resp.json()`: list-of-dicts
`generated_text`, dict `generated_text`, dict `error` (a FAILURE despite
HTTP 200), dict `choices[0].text`, else stringify. -/
def hfParse200 (data : Json) : Except String (Bool × Json) := do
  let listHit ← (match data with
    | .arr l =>
      if l.length > 0 then do
        let d0 ← pyIndex0 data
        pyIn "generated_text" d0
      else pure false
    | _ => pure false)
  if listHit then
    let d0 ← pyIndex0 data
    let v ← pySub "generated_text" d0
    return (true, v)
  match data with
  | .obj _ => do
    let hasGen ← pyIn "generated_text" data
    if hasGen then
      let v ← pySub "generated_text" data
      return (true, v)
    let hasErr ← pyIn "error" data
    if hasErr then
      let v ← pySub "error" data
      return (false, Json.str ("HF error: " ++ pyToStr v))
    let hasChoices ← pyIn "choices" data
    if hasChoices then
      let ch ← pySub "choices" data
      let n ← pyLen ch
      if n > 0 then
        let c0 ← pyIndex0 ch
        let hasText ← pyIn "text" c0
        if hasText then
          let v ← pySub "text" c0
          return (true, v)
    return (true, Json.str (pyToStr data))
  | _ => return (true, Json.str (pyToStr data))

/-- Lines 66–70 of `app.py`: the generic non-200 failure message, built
from the status code and the response's JSON payload if parseable, else
its raw text. -/
def hfGenericError (resp : HttpResponse) : String :=
  "Error " ++ toString resp.status ++ ": " ++
    (match resp.jsonBody with
     | .ok j => pyToStr j
     | .error _ => resp.text)

/-- Lines 16–88 of `app.py`: `call_huggingface(prompt, hf_key, model)`.
`net` models the outcomes of the POSTs this run would issue and `env` the
process environment; `prompt`, `hf_key` and `model` only shape the outbound
request, which the network model absorbs. -/
def call_huggingface (net : HFNet) (env : String → Option String)
    (prompt : String) (hf_key : String)
    (model : String := "google/flan-t5-large") : Bool × Json :=
  match net.primary with
  | .error e => (false, Json.str ("Request error: " ++ e))
  | .ok resp =>
    if resp.status ≠ 200 then
      let fb : Option (Bool × Json) :=
        if resp.status = 404 then
          (tryFallbacks net.fallback (fallbackModels env)).1
        else none
      match fb with
      | some r => r
      | none => (false, Json.str (hfGenericError resp))
    else
      match (do hfParse200 (← resp.jsonBody) : Except String (Bool × Json)) with
      | .ok r => r
      | .error e => (false, Json.str ("Parse error: " ++ e))

/-- The three ways `call_openai` tries to read the generated text off the
SDK's response object: the structured accessor
`response.choices[0].message.content`, the dict-style accessor, and
`str(response)`; each of the first two may fail (shape varies by client
version). -/
structure ChatResp where
  structuredContent : Option Json
  dictContent : Option Json
  asString : String

/-- Environment for `call_openai`: whether `from openai import OpenAI`
succeeded at import time, and the outcome of client construction plus the
chat-completion call (an exception message, or a response object). -/
structure OpenAIEnv where
  available : Bool
  callResult : Except String ChatResp

/-- Lines 91–113 of `app.py`: `call_openai(prompt, openai_key, model)`. -/
def call_openai (oenv : OpenAIEnv) (prompt : String) (openai_key : String)
    (model : String := "gpt-3.5-turbo") : Bool × Json :=
  if oenv.available = false then
    (false, Json.str "OpenAI client not installed in environment.")
  else
    match oenv.callResult with
    | .error e => (false, Json.str e)
    | .ok r =>
      match r.structuredContent with
      | some c => (true, c)
      | none =>
        match r.dictContent with
        | some c => (true, c)
        | none => (true, Json.str r.asString)

/-- The fixed instruction text of the prompt template (lines 130–132 of
`app.py`, up to the interpolated code). -/
def promptInstruction : String :=
  "Please generate ONLY a documentation docstring or block comment for the following code. Return only the docstring or comment text (no extra explanation).\n\nCode:\n"

/-- Lines 129–133 of `app.py`: the prompt built from the `code` value by
template substitution (an f-string applies `str()` to the value). -/
def buildPrompt (code : Json) : String :=
  promptInstruction ++ pyToStr code ++ "\n\nDocumentation:"

/-- Python `key and key.startswith(pre)` for an optional environment
value: `None` and the empty string are falsy. -/
def keySelected (k : Option String) (pre : String) : Bool :=
  match k with
  | none => false
  | some s => (!(s == "")) && pre.data.isPrefixOf s.data

/-- Everything ambient a request handler run can observe: the process
environment, the Hugging Face network behaviour, and the OpenAI SDK
environment. -/
structure World where
  env : String → Option String
  hfNet : HFNet
  oaEnv : OpenAIEnv

/-- The body of the `try:` block of `generate_docs` (lines 124–166 of
`app.py`).  `reqJson` is `request.json`: the decoded body, or the
exception raised when the body is absent or not parseable JSON.  The
result is the pair (HTTP status, JSON body) produced by `jsonify`. -/
def generate_docs_inner (w : World) (reqJson : Except String Json) :
    Except String (Nat × Json) := do
  let body ← reqJson
  let code ← pyGet "code" body
  if pyFalsy code then
    return (400, Json.obj [("error", Json.str "No code provided")])
  let prompt := buildPrompt code
  let hf_key := w.env "HUGGINGFACE_API_KEY"
  let openai_key := w.env "OPENAI_API_KEY"
  if keySelected hf_key "hf_" then
    let hf_model := (w.env "HUGGINGFACE_MODEL").getD "google/flan-t5-large"
    let r := call_huggingface w.hfNet w.env prompt (hf_key.getD "") hf_model
    if r.1 then
      return (200, Json.obj [("documentation", r.2)])
    else
      return (502, Json.obj [("error", r.2)])
  if keySelected openai_key "sk-" then
    let r := call_openai w.oaEnv prompt (openai_key.getD "")
    if r.1 then
      return (200, Json.obj [("documentation", r.2)])
    else
      return (502, Json.obj [("error", r.2)])
  return (400, Json.obj [("error",
    Json.str "No API key found. Set HUGGINGFACE_API_KEY (hf_...) or OPENAI_API_KEY (sk_...).")])

/-- Lines 121–169 of `app.py`: the `/generate-docs` handler, whose
catch-all `except` turns any exception into HTTP 500 with the exception's
message. -/
def generate_docs (w : World) (reqJson : Except String Json) : Nat × Json :=
  match generate_docs_inner w reqJson with
  | .ok r => r
  | .error e => (500, Json.obj [("error", Json.str e)])

/-! ## Helper lemmas -/

/-- A fallback attempt the loop skips: a transport exception or a non-200
response. -/
def fallbackSkipped : NetOutcome → Bool
  | .error _ => true
  | .ok r2 => r2.status != 200

/-- If every fallback attempt is skipped, the fallback loop produces no
result. -/
theorem tryFallbacks_fst_eq_none (net : String → NetOutcome) (ms : List String)
    (h : ∀ fm ∈ ms, fallbackSkipped (net fm) = true) :
    (tryFallbacks net ms).1 = none := by
  induction ms with
  | nil => rfl
  | cons fm rest ih =>
    have h1 := h fm (List.mem_cons_self fm rest)
    have hrest := ih (fun m hm => h m (List.mem_cons_of_mem fm hm))
    unfold tryFallbacks
    cases hnet : net fm with
    | error e => simpa using hrest
    | ok r2 =>
      have hs : r2.status ≠ 200 := by
        simpa [fallbackSkipped, hnet] using h1
      simp [hs, hrest]

/-- If every attempt before position `fm` is skipped and the POST to `fm`
returns a 200 response, the fallback loop returns that attempt's parse
result and the request trace stops at `fm`. -/
theorem tryFallbacks_first_200 (net : String → NetOutcome)
    (ms₁ ms₂ : List String) (fm : String) (resp2 : HttpResponse)
    (hskip : ∀ x ∈ ms₁, fallbackSkipped (net x) = true)
    (hfm : net fm = .ok resp2) (h200 : resp2.status = 200) :
    tryFallbacks net (ms₁ ++ fm :: ms₂) =
      (some (hfFallbackAttempt fm resp2), ms₁ ++ [fm]) := by
  induction ms₁ with
  | nil =>
    simp only [List.nil_append]
    unfold tryFallbacks
    rw [hfm]
    simp [h200]
  | cons a as ih =>
    have ha := hskip a (List.mem_cons_self a as)
    have hrest := ih (fun x hx => hskip x (List.mem_cons_of_mem a hx))
    simp only [List.cons_append]
    unfold tryFallbacks
    cases hnet : net a with
    | error e => simp [hrest]
    | ok r2 =>
      have hs : r2.status ≠ 200 := by
        simpa [fallbackSkipped, hnet] using ha
      simp [hs, hrest]

/-- The fallback-path 200-body parser on a decoded mapping without
"generated_text" whose choices clause fails to match without raising
falls through to the stringify branch with success `true` (there is no
"error" branch on this path). -/
theorem fallbackParse200_obj_stringify (fs : List (String × Json))
    (hng : dictHasKey fs "generated_text" = false)
    (hch : fallbackChoicesCond (.obj fs) = .ok false) :
    fallbackParse200 (.obj fs) = .ok (true, Json.str (pyToStr (.obj fs))) := by
  unfold fallbackParse200
  simp [Bind.bind, Except.bind, Pure.pure, Except.pure, pyIn, hng, hch]

/-! ## C1 -/

/-- C1 counterexample: with the primary POST returning 404 and the first
fallback model ("gpt2") returning HTTP 200 whose decoded body is the
mapping containing key "error" (and no "generated_text"), `call_huggingface`
returns success `true` with the stringified body — NOT the Failure the
claim requires, because the fallback-path parser (lines 54–62) has no
branch for the "error" key. -/
theorem c1_cex_fallback_error_body_is_success :
    call_huggingface
      ⟨.ok ⟨404, .ok (.obj [("error", .str "Not Found")]), "nf"⟩,
       fun _ => .ok ⟨200, .ok (.obj [("error", .str "boom")]), "b"⟩⟩
      (fun _ => none) "p" "hf_k" "google/flan-t5-large" =
      (true, .str "\x7b\x27error\x27: \x27boom\x27\x7d") := rfl

/-- C1 amended: fallback 200 responses are parsed by a REDUCED normalizer
lacking the primary path's "error" branch.  For EVERY run in which the
fallback loop reaches some fallback model `fm` of the (possibly
overridden) fallback list — all earlier attempts skipped — and `fm`
returns 200 with a decoded mapping body containing "error" but no
"generated_text", whose choices clause fails to match without raising
(absent, empty, or first element lacking "text"), the result is Success
carrying the stringified body, not Failure. -/
theorem c1_amended_fallback_error_body_yields_success
    (net : HFNet) (env : String → Option String) (p k m t t2 : String)
    (jb : Except String Json) (fs : List (String × Json))
    (ms₁ ms₂ : List String) (fm : String)
    (hprim : net.primary = .ok ⟨404, jb, t⟩)
    (hlist : fallbackModels env = ms₁ ++ fm :: ms₂)
    (hskip : ∀ x ∈ ms₁, fallbackSkipped (net.fallback x) = true)
    (hfb : net.fallback fm = .ok ⟨200, .ok (.obj fs), t2⟩)
    (herr : dictHasKey fs "error" = true)
    (hng : dictHasKey fs "generated_text" = false)
    (hch : fallbackChoicesCond (.obj fs) = .ok false) :
    call_huggingface net env p k m = (true, Json.str (pyToStr (.obj fs))) := by
  have hloop := tryFallbacks_first_200 net.fallback ms₁ ms₂ fm
    ⟨200, .ok (.obj fs), t2⟩ hskip hfb rfl
  have hatt : hfFallbackAttempt fm ⟨200, .ok (.obj fs), t2⟩ =
      (true, Json.str (pyToStr (.obj fs))) := by
    unfold hfFallbackAttempt
    simp [Bind.bind, Except.bind, fallbackParse200_obj_stringify fs hng hch]
  unfold call_huggingface
  rw [hprim]
  simp [hlist, hloop, hatt]

/-- C1 amended witness at a concrete input: the 200 response comes from
the SECOND default fallback model (the first returns 503), and its body
has the "choices" key present but empty next to "error". -/
theorem c1_amended_witness :
    dictHasKey [("error", Json.str "boom"), ("choices", Json.arr [])] "error" = true ∧
    fallbackChoicesCond (.obj [("error", Json.str "boom"), ("choices", Json.arr [])]) =
      .ok false ∧
    call_huggingface
      ⟨.ok ⟨404, .ok (.obj [("error", .str "Not Found")]), "nf"⟩,
       fun fm => if fm = "bigscience/bloom-560m"
                 then .ok ⟨200, .ok (.obj [("error", .str "boom"), ("choices", .arr [])]), "b"⟩
                 else .ok ⟨503, .error "x", "busy"⟩⟩
      (fun _ => none) "p2" "hf_k2" "m2" =
      (true, .str "\x7b\x27error\x27: \x27boom\x27, \x27choices\x27: []\x7d") := by
  refine ⟨rfl, rfl, ?_⟩
  have h := c1_amended_fallback_error_body_yields_success
    ⟨.ok ⟨404, .ok (.obj [("error", .str "Not Found")]), "nf"⟩,
     fun fm => if fm = "bigscience/bloom-560m"
               then .ok ⟨200, .ok (.obj [("error", .str "boom"), ("choices", .arr [])]), "b"⟩
               else .ok ⟨503, .error "x", "busy"⟩⟩
    (fun _ => none) "p2" "hf_k2" "m2" "nf" "b"
    (.ok (.obj [("error", .str "Not Found")]))
    [("error", Json.str "boom"), ("choices", Json.arr [])]
    ["gpt2"] ["facebook/opt-350m"] "bigscience/bloom-560m"
    rfl rfl (by intro x hx; simp at hx; subst hx; rfl) rfl rfl rfl rfl
  exact h

/-! ## C2 -/

/-- C2: when the primary request returns 404 and every fallback attempt is
skipped (transport error or non-200), `call_huggingface` returns Failure
with the generic message built from the ORIGINAL 404 response's status
code and body (`hfGenericError`: its JSON payload if parseable, else its
raw text) — no synthesized "all fallbacks failed" message exists. -/
theorem c2_exhausted_fallbacks_return_original_404
    (net : HFNet) (env : String → Option String) (p k m : String)
    (resp : HttpResponse)
    (hprim : net.primary = .ok resp)
    (hstatus : resp.status = 404)
    (hfb : ∀ fm ∈ fallbackModels env, fallbackSkipped (net.fallback fm) = true) :
    call_huggingface net env p k m = (false, Json.str (hfGenericError resp)) := by
  have hnone := tryFallbacks_fst_eq_none net.fallback (fallbackModels env) hfb
  unfold call_huggingface
  rw [hprim]
  simp [hstatus, hnone]

/-- C2 witness at a concrete input: primary 404 with a JSON body, first
fallback a transport error, remaining fallbacks non-200. -/
theorem c2_witness :
    (404 : Nat) = 404 ∧
    call_huggingface
      ⟨.ok ⟨404, .ok (.obj [("error", .str "Not Found")]), "nf"⟩,
       fun fm => if fm = "gpt2" then .error "conn refused"
                 else .ok ⟨503, .error "x", "busy"⟩⟩
      (fun _ => none) "p3" "k3" "m3" =
      (false, .str "Error 404: \x7b\x27error\x27: \x27Not Found\x27\x7d") := by
  refine ⟨rfl, ?_⟩
  have h := c2_exhausted_fallbacks_return_original_404
    ⟨.ok ⟨404, .ok (.obj [("error", .str "Not Found")]), "nf"⟩,
     fun fm => if fm = "gpt2" then .error "conn refused"
               else .ok ⟨503, .error "x", "busy"⟩⟩
    (fun _ => none) "p3" "k3" "m3"
    ⟨404, .ok (.obj [("error", .str "Not Found")]), "nf"⟩
    rfl rfl
    (by intro fm _; by_cases hfm : fm = "gpt2" <;> simp [hfm, fallbackSkipped])
  exact h

/-! ## C3 -/

/-- C3: when the primary request returns 404 and the first fallback model
("gpt2") returns HTTP 200 with body containing "generated_text": y, the
result is Success(y), and the loop's request trace is exactly ["gpt2"] —
no later fallback model is POSTed to. -/
theorem c3_first_fallback_200_stops_loop
    (net : HFNet) (env : String → Option String) (p k m y t t2 : String)
    (jb : Except String Json)
    (hprim : net.primary = .ok ⟨404, jb, t⟩)
    (henv : env "HUGGINGFACE_FALLBACK_MODELS" = none)
    (hfb : net.fallback "gpt2" =
      .ok ⟨200, .ok (.obj [("generated_text", .str y)]), t2⟩) :
    call_huggingface net env p k m = (true, .str y) ∧
    (tryFallbacks net.fallback (fallbackModels env)).2 = ["gpt2"] := by
  have hmodels : fallbackModels env = ["gpt2", "bigscience/bloom-560m", "facebook/opt-350m"] := by
    simp [fallbackModels, henv]
  have hloop : tryFallbacks net.fallback (fallbackModels env) =
      (some (hfFallbackAttempt "gpt2" ⟨200, .ok (.obj [("generated_text", .str y)]), t2⟩),
       ["gpt2"]) := by
    rw [hmodels]
    unfold tryFallbacks
    rw [hfb]
    simp
  have hatt : hfFallbackAttempt "gpt2" ⟨200, .ok (.obj [("generated_text", .str y)]), t2⟩ =
      (true, .str y) := by
    unfold hfFallbackAttempt fallbackParse200
    simp [Bind.bind, Except.bind, Pure.pure, Except.pure, pyIn, pySub, dictHasKey]
  constructor
  · unfold call_huggingface
    rw [hprim]
    simp [hloop, hatt]
  · rw [hloop]

/-- C3 witness at a concrete input. -/
theorem c3_witness :
    call_huggingface
      ⟨.ok ⟨404, .error "nojson", "nf"⟩,
       fun _ => .ok ⟨200, .ok (.obj [("generated_text", .str "Y")]), "b"⟩⟩
      (fun _ => none) "p4" "k4" "m4" = (true, .str "Y") ∧
    (tryFallbacks
      (fun _ => .ok ⟨200, .ok (.obj [("generated_text", .str "Y")]), "b"⟩)
      (fallbackModels (fun _ => none))).2 = ["gpt2"] :=
  c3_first_fallback_200_stops_loop
    ⟨.ok ⟨404, .error "nojson", "nf"⟩,
     fun _ => .ok ⟨200, .ok (.obj [("generated_text", .str "Y")]), "b"⟩⟩
    (fun _ => none) "p4" "k4" "m4" "Y" "nf" "b" (.error "nojson") rfl rfl rfl

/-! ## C4 -/

/-- C4: a primary (non-fallback) 200 response whose decoded body is the
mapping with "error": "blew up" yields Failure with message exactly
"HF error: blew up", despite the 200 status. -/
theorem c4_primary_200_error_mapping_is_failure
    (net : HFNet) (env : String → Option String) (p k m t : String)
    (hprim : net.primary = .ok ⟨200, .ok (.obj [("error", .str "blew up")]), t⟩) :
    call_huggingface net env p k m = (false, .str "HF error: blew up") := by
  unfold call_huggingface
  rw [hprim]
  rfl

/-- C4 witness at a concrete input. -/
theorem c4_witness :
    call_huggingface
      ⟨.ok ⟨200, .ok (.obj [("error", .str "blew up")]), "t"⟩, fun _ => .error "x"⟩
      (fun _ => none) "p5" "k5" "m5" = (false, .str "HF error: blew up") :=
  c4_primary_200_error_mapping_is_failure
    ⟨.ok ⟨200, .ok (.obj [("error", .str "blew up")]), "t"⟩, fun _ => .error "x"⟩
    (fun _ => none) "p5" "k5" "m5" "t" rfl

/-! ## C5 -/

/-- C5: for a well-formed JSON-object request body whose "code" field is
missing or falsy (empty), `generate_docs` returns HTTP 400 with the error
body, for EVERY world — in particular the result does not depend on the
network or SDK environment, so no provider call is attempted. -/
theorem c5_empty_code_returns_400
    (w : World) (fs : List (String × Json))
    (h : pyFalsy (dictLookup fs "code") = true) :
    generate_docs w (.ok (.obj fs)) =
      (400, .obj [("error", .str "No code provided")]) := by
  unfold generate_docs generate_docs_inner
  simp [Bind.bind, Except.bind, Pure.pure, Except.pure, pyGet, h]

/-- C5 witness at a concrete input: a body with no "code" key at all. -/
theorem c5_witness :
    pyFalsy (dictLookup [("other", Json.num 1)] "code") = true ∧
    generate_docs
      ⟨fun _ => none, ⟨.error "net", fun _ => .error "net"⟩, ⟨true, .error "sdk"⟩⟩
      (.ok (.obj [("other", Json.num 1)])) =
      (400, .obj [("error", .str "No code provided")]) :=
  ⟨rfl, c5_empty_code_returns_400
    ⟨fun _ => none, ⟨.error "net", fun _ => .error "net"⟩, ⟨true, .error "sdk"⟩⟩
    [("other", Json.num 1)] rfl⟩

/-! ## C6 -/

/-- C6: with a truthy "code" and neither environment credential passing
its prefix test (`keySelected`), `generate_docs` returns HTTP 400 with the
"No API key found" message, for every network/SDK environment (neither
provider is contacted). -/
theorem c6_no_matching_key_returns_400
    (w : World) (fs : List (String × Json))
    (hcode : pyFalsy (dictLookup fs "code") = false)
    (hhf : keySelected (w.env "HUGGINGFACE_API_KEY") "hf_" = false)
    (hoa : keySelected (w.env "OPENAI_API_KEY") "sk-" = false) :
    generate_docs w (.ok (.obj fs)) =
      (400, .obj [("error",
        .str "No API key found. Set HUGGINGFACE_API_KEY (hf_...) or OPENAI_API_KEY (sk_...).")]) := by
  unfold generate_docs generate_docs_inner
  simp [Bind.bind, Except.bind, Pure.pure, Except.pure, pyGet, hcode, hhf, hoa]

/-- C6 witness at a concrete input: both credentials present but with the
wrong prefixes. -/
theorem c6_witness :
    keySelected (some "sk-wrong-slot") "hf_" = false ∧
    keySelected (some "hf_wrong-slot") "sk-" = false ∧
    generate_docs
      ⟨fun v => if v = "HUGGINGFACE_API_KEY" then some "sk-wrong-slot"
                else if v = "OPENAI_API_KEY" then some "hf_wrong-slot" else none,
       ⟨.error "net", fun _ => .error "net"⟩, ⟨true, .error "sdk"⟩⟩
      (.ok (.obj [("code", .str "def f(): pass")])) =
      (400, .obj [("error",
        .str "No API key found. Set HUGGINGFACE_API_KEY (hf_...) or OPENAI_API_KEY (sk_...).")]) :=
  ⟨rfl, rfl, c6_no_matching_key_returns_400
    ⟨fun v => if v = "HUGGINGFACE_API_KEY" then some "sk-wrong-slot"
              else if v = "OPENAI_API_KEY" then some "hf_wrong-slot" else none,
     ⟨.error "net", fun _ => .error "net"⟩, ⟨true, .error "sdk"⟩⟩
    [("code", .str "def f(): pass")] rfl rfl rfl⟩

/-! ## C7 -/

/-- C7: whenever the OpenAI SDK capability is unavailable, `call_openai`
returns the fixed failure message, and the result is the same for EVERY
outcome the client call could have had — zero network calls are made. -/
theorem c7_sdk_unavailable_fixed_failure
    (cr : Except String ChatResp) (p k m : String) :
    call_openai ⟨false, cr⟩ p k m =
      (false, .str "OpenAI client not installed in environment.") := rfl

/-! ## C8 -/

/-- Modelled from the spec's propagation policy (§7): the Dispatcher's
outcome-to-status mapping — Success → HTTP 200 with the generated text,
Failure → HTTP 502 with the failure message. -/
def outcomeToHttp (r : Bool × Json) : Nat × Json :=
  if r.1 then (200, Json.obj [("documentation", r.2)])
  else (502, Json.obj [("error", r.2)])

/-- C8: both provider clients are total functions into `(success, text)`
pairs (every network outcome, exception included, is mapped to a pair —
nothing escapes their boundary), and whenever a provider is selected the
Dispatcher's response is exactly `outcomeToHttp` of that provider's
outcome: 200 on Success, 502 on Failure. -/
theorem c8_clients_total_dispatcher_maps_outcomes
    (w : World) (fs : List (String × Json))
    (hcode : pyFalsy (dictLookup fs "code") = false) :
    (keySelected (w.env "HUGGINGFACE_API_KEY") "hf_" = true →
      generate_docs w (.ok (.obj fs)) =
        outcomeToHttp (call_huggingface w.hfNet w.env
          (buildPrompt (dictLookup fs "code"))
          ((w.env "HUGGINGFACE_API_KEY").getD "")
          ((w.env "HUGGINGFACE_MODEL").getD "google/flan-t5-large"))) ∧
    (keySelected (w.env "HUGGINGFACE_API_KEY") "hf_" = false →
     keySelected (w.env "OPENAI_API_KEY") "sk-" = true →
      generate_docs w (.ok (.obj fs)) =
        outcomeToHttp (call_openai w.oaEnv
          (buildPrompt (dictLookup fs "code"))
          ((w.env "OPENAI_API_KEY").getD ""))) := by
  constructor
  · intro hhf
    unfold generate_docs generate_docs_inner outcomeToHttp
    cases hr : (call_huggingface w.hfNet w.env
        (buildPrompt (dictLookup fs "code"))
        ((w.env "HUGGINGFACE_API_KEY").getD "")
        ((w.env "HUGGINGFACE_MODEL").getD "google/flan-t5-large")).1 <;>
      simp [Bind.bind, Except.bind, Pure.pure, Except.pure, pyGet, hcode, hhf, hr]
  · intro hhf hoa
    unfold generate_docs generate_docs_inner outcomeToHttp
    cases hr : (call_openai w.oaEnv
        (buildPrompt (dictLookup fs "code"))
        ((w.env "OPENAI_API_KEY").getD "")).1 <;>
      simp [Bind.bind, Except.bind, Pure.pure, Except.pure, pyGet, hcode, hhf, hoa, hr]

/-- C8 witness at a concrete input: an hf_-prefixed credential, primary
request a transport error, so the provider outcome is a Failure and the
response is 502 with the failure message. -/
theorem c8_witness :
    pyFalsy (dictLookup [("code", Json.str "x = 1")] "code") = false ∧
    keySelected (some "hf_abc") "hf_" = true ∧
    generate_docs
      ⟨fun v => if v = "HUGGINGFACE_API_KEY" then some "hf_abc" else none,
       ⟨.error "boom", fun _ => .error "boom"⟩, ⟨true, .error "sdk"⟩⟩
      (.ok (.obj [("code", .str "x = 1")])) =
      outcomeToHttp (call_huggingface
        ⟨.error "boom", fun _ => .error "boom"⟩
        (fun v => if v = "HUGGINGFACE_API_KEY" then some "hf_abc" else none)
        (buildPrompt (dictLookup [("code", Json.str "x = 1")] "code"))
        "hf_abc" "google/flan-t5-large") :=
  ⟨rfl, rfl,
    (c8_clients_total_dispatcher_maps_outcomes
      ⟨fun v => if v = "HUGGINGFACE_API_KEY" then some "hf_abc" else none,
       ⟨.error "boom", fun _ => .error "boom"⟩, ⟨true, .error "sdk"⟩⟩
      [("code", Json.str "x = 1")] rfl).1 rfl⟩

/-! ## C9 -/

/-- C9: for every non-empty code string, the prompt built by the
Dispatcher contains that string as a literal substring and starts with the
fixed instruction text of the template. -/
theorem c9_prompt_contains_code_and_instruction (c : String) (h : c ≠ "") :
    (∃ l r, (buildPrompt (.str c)).data = l ++ c.data ++ r) ∧
    (∃ r, (buildPrompt (.str c)).data = promptInstruction.data ++ r) := by
  constructor
  · exact ⟨promptInstruction.data, "\n\nDocumentation:".data, by
      simp [buildPrompt, pyToStr, String.data_append]⟩
  · exact ⟨(c ++ "\n\nDocumentation:").data, by
      simp [buildPrompt, pyToStr, String.data_append]⟩

/-- C9 witness at a concrete input. -/
theorem c9_witness :
    "print(1)" ≠ "" ∧
    ((∃ l r, (buildPrompt (.str "print(1)")).data = l ++ "print(1)".data ++ r) ∧
     (∃ r, (buildPrompt (.str "print(1)")).data = promptInstruction.data ++ r)) :=
  ⟨by decide, c9_prompt_contains_code_and_instruction "print(1)" (by decide)⟩

/-! ## C10 -/

/-- C10: when `request.json` raises (absent or unparseable body), the
catch-all boundary returns HTTP 500 carrying the exception's message — not
the 400 validation response, for every world and every exception. -/
theorem c10_unparseable_body_returns_500 (w : World) (e : String) :
    generate_docs w (.error e) = (500, .obj [("error", .str e)]) := rfl
